import Mathlib

/-!
Shallow embedding of the moltworld spatial world-state engine
(src/utils.js, src/spatial.js, src/database.js, src/server.js).

Coordinates are modelled as real numbers; the JavaScript source computes
with IEEE doubles, which the surrounding specification itself treats as
reals ("within floating tolerance").  Database tables are modelled as
lists of rows, the SQL WHERE/ORDER BY/LIMIT pipeline as
filter/insertionSort/take, and operations that can throw as `Except`.
Randomness (Math.random draws) is passed in as explicit parameters.
-/

namespace Moltworld

/-- A 3D position (x, y, z) as handled by the spatial engine. -/
structure Pos where
  x : ℝ
  y : ℝ
  z : ℝ

/-- WORLD_BOUNDS from utils.js as a membership predicate:
x and z in [-500, 500], y in [0, 200]. -/
def inBounds (p : Pos) : Prop :=
  -500 ≤ p.x ∧ p.x ≤ 500 ∧ 0 ≤ p.y ∧ p.y ≤ 200 ∧ -500 ≤ p.z ∧ p.z ≤ 500

/-- clampPosition from utils.js: clamp each coordinate independently into
the world bounds. -/
noncomputable def clampPosition (x y z : ℝ) : Pos :=
  { x := max (-500) (min 500 x)
    y := max 0 (min 200 y)
    z := max (-500) (min 500 z) }

/-- validatePosition from utils.js: returns the first bounds-violation
error message, or none when the coordinates are inside the world bounds.
(The typeof/NaN guards of the source do not arise over ℝ.) -/
noncomputable def validatePosition (x y z : ℝ) : Option String :=
  if x < -500 ∨ 500 < x then some ("X must be between -500 and 500")
  else if y < 0 ∨ 200 < y then some ("Y must be between 0 and 200")
  else if z < -500 ∨ 500 < z then some ("Z must be between -500 and 500")
  else none

/-- calculateDistance from utils.js: Euclidean distance between two
positions. -/
noncomputable def calculateDistance (pos1 pos2 : Pos) : ℝ :=
  Real.sqrt ((pos1.x - pos2.x) * (pos1.x - pos2.x) +
    (pos1.y - pos2.y) * (pos1.y - pos2.y) +
    (pos1.z - pos2.z) * (pos1.z - pos2.z))

/-- validateSpeed from utils.js (MAX_SPEED = 50): vacuously true when the
elapsed time is non-positive, otherwise distance over elapsed time must
not exceed the max speed. -/
def validateSpeed (oldPos newPos : Pos) (deltaTime : ℝ) : Prop :=
  deltaTime ≤ 0 ∨ calculateDistance oldPos newPos / deltaTime ≤ 50

noncomputable instance (oldPos newPos : Pos) (deltaTime : ℝ) :
    Decidable (validateSpeed oldPos newPos deltaTime) := by
  unfold validateSpeed; infer_instance

/-- clampMovement from spatial.js: when the proposed displacement exceeds
maxDist = 50 × deltaTime, scale the displacement vector down to maxDist
and re-clamp to bounds; otherwise pass the proposal through. -/
noncomputable def clampMovement (oldPos newPos : Pos) (deltaTime : ℝ) : Pos :=
  let dx := newPos.x - oldPos.x
  let dy := newPos.y - oldPos.y
  let dz := newPos.z - oldPos.z
  let dist := Real.sqrt (dx * dx + dy * dy + dz * dz)
  let maxDist := 50 * deltaTime
  if dist ≤ maxDist then newPos
  else
    let scale := maxDist / dist
    clampPosition (oldPos.x + dx * scale) (oldPos.y + dy * scale) (oldPos.z + dz * scale)

/-- An agent as seen by the movement path: its stored position and its
in_habitat (active) flag. -/
structure Agent where
  pos : Pos
  inHabitat : Bool

/-- moveAgent from spatial.js, position pipeline: reject when the agent is
not in the habitat, reject the proposal when validatePosition fails,
otherwise store the proposal, speed-clamped via clampMovement when
validateSpeed fails.  deltaTime is the elapsed seconds computed by the
caller (always ≥ 0.01 in the source).  Velocity, orientation and
animation bookkeeping are orthogonal to the stored coordinates and
elided. -/
noncomputable def moveAgent (agent : Agent) (proposed : Pos) (deltaTime : ℝ) :
    Except String Pos :=
  if agent.inHabitat = false then Except.error ("Agent is not in the habitat")
  else
    match validatePosition proposed.x proposed.y proposed.z with
    | some e => Except.error e
    | none =>
      if validateSpeed agent.pos proposed deltaTime then Except.ok proposed
      else Except.ok (clampMovement agent.pos proposed deltaTime)

/-- SPAWN_ZONES from spatial.js, as the lookup the source performs. -/
def spawnZone : String → Option Pos
  | "coral_reef" => some ⟨0, 50, 0⟩
  | "kelp_forest" => some ⟨200, 40, 200⟩
  | "deep_ocean" => some ⟨-200, 20, -200⟩
  | "sandy_shore" => some ⟨100, 30, -100⟩
  | _ => none

/-- randomScatter from spatial.js, with the three Math.random() draws
passed in as u1, u2, u3. -/
noncomputable def randomScatter (base : Pos) (radius u1 u2 u3 : ℝ) : Pos :=
  let angle := u1 * (2 * Real.pi)
  let r := u2 * radius
  ⟨base.x + r * Real.cos angle, base.y + (u3 - 0.5) * 10, base.z + r * Real.sin angle⟩

/-- getSpawnPosition from spatial.js: choose the base position (a named
spawn zone; a random base when the preference is random or absent; the
coral reef as fallback for unknown names), scatter it by
SPAWN_SCATTER_RADIUS = 30, then clamp into bounds.  ub1–ub3 are the
random draws used for a random base, us1–us3 those of the scatter. -/
noncomputable def getSpawnPosition (preferredSpawn : Option String)
    (ub1 ub2 ub3 us1 us2 us3 : ℝ) : Pos :=
  let base :=
    match preferredSpawn with
    | some s =>
      match spawnZone s with
      | some zone => zone
      | none =>
        if s = "random" then ⟨(ub1 - 0.5) * 800, 20 + ub2 * 100, (ub3 - 0.5) * 800⟩
        else ⟨0, 50, 0⟩
    | none => ⟨(ub1 - 0.5) * 800, 20 + ub2 * 100, (ub3 - 0.5) * 800⟩
  let scattered := randomScatter base 30 us1 us2 us3
  clampPosition scattered.x scattered.y scattered.z

/-- updateFollowers from spatial.js, the per-relation movement step for a
live relation whose two parties are active: given the follower and target
positions and the desired follow distance, return the new clamped
follower position to store, or none when within tolerance (no movement
this tick). -/
noncomputable def followStep (agent target : Pos) (distance : ℝ) : Option Pos :=
  let currentDist := calculateDistance agent target
  if currentDist > distance + 2 then
    let dx := target.x - agent.x
    let dy := target.y - agent.y
    let dz := target.z - agent.z
    let norm := Real.sqrt (dx * dx + dy * dy + dz * dz)
    let moveSpeed := min 20 (currentDist - distance)
    let moveFrac := moveSpeed / norm
    some (clampPosition (agent.x + dx * moveFrac) (agent.y + dy * moveFrac)
      (agent.z + dz * moveFrac))
  else none

/-- A row of the positions/agents join as the proximity queries read it. -/
structure AgentRow where
  id : Nat
  pos : Pos
  inHabitat : Bool

/-- A row of the structures table as the proximity queries read it. -/
structure StructRow where
  sid : Nat
  pos : Pos
  width : ℝ
  length : ℝ
  height : ℝ

/-- The ORDER BY distance comparison used by getNearbyAgents. -/
def agentDistLE (q : Pos) (a b : AgentRow) : Prop :=
  calculateDistance a.pos q ≤ calculateDistance b.pos q

noncomputable instance (q : Pos) : DecidableRel (agentDistLE q) :=
  fun a b => Real.decidableLE (calculateDistance a.pos q) (calculateDistance b.pos q)

/-- The ORDER BY distance comparison used by getNearbyStructures. -/
def structDistLE (q : Pos) (a b : StructRow) : Prop :=
  calculateDistance a.pos q ≤ calculateDistance b.pos q

noncomputable instance (q : Pos) : DecidableRel (structDistLE q) :=
  fun a b => Real.decidableLE (calculateDistance a.pos q) (calculateDistance b.pos q)

/-- getNearbyAgents from database.js: in-habitat agents within the radius
of the query point, ordered ascending by distance, limited to 50 rows. -/
noncomputable def getNearbyAgents (world : List AgentRow) (q : Pos) (radius : ℝ) :
    List AgentRow :=
  ((world.filter fun a =>
    a.inHabitat && decide (calculateDistance a.pos q ≤ radius)).insertionSort
      (agentDistLE q)).take 50

/-- getNearbyStructures from database.js: structures within the radius of
the query point, ordered ascending by distance, limited to 100 rows. -/
noncomputable def getNearbyStructures (structs : List StructRow) (q : Pos) (radius : ℝ) :
    List StructRow :=
  ((structs.filter fun s =>
    decide (calculateDistance s.pos q ≤ radius)).insertionSort
      (structDistLE q)).take 100

/-- A JavaScript numeric fallback value-or-default: an absent value (and
the falsy 0) becomes the default. -/
noncomputable def jsOrDefault (v : Option ℝ) (d : ℝ) : ℝ :=
  match v with
  | none => d
  | some x => if x = 0 then d else x

/-- An agent entry of a nearby-entities response. -/
structure NearbyAgent where
  id : Nat
  pos : Pos
  distance : ℝ

/-- A structure entry of a nearby-entities response. -/
structure NearbyStruct where
  sid : Nat
  pos : Pos
  distance : ℝ

/-- A nearby-entities response. -/
structure NearbyResult where
  agents : List NearbyAgent
  structures : List NearbyStruct

/-- getNearbyEntities from spatial.js: reject when the querying agent is
not in the habitat; clamp the radius into [1, 300] with default 50; query
nearby agents and structures around the agent; drop the querying agent
from the agents list and tag every entry with its distance. -/
noncomputable def getNearbyEntities (world : List AgentRow) (structs : List StructRow)
    (agent : AgentRow) (radius : Option ℝ) : Except String NearbyResult :=
  if agent.inHabitat = false then Except.error ("Agent is not in the habitat")
  else
    let clampedRadius := max 1 (min (jsOrDefault radius 50) 300)
    let agents := getNearbyAgents world agent.pos clampedRadius
    let structures := getNearbyStructures structs agent.pos clampedRadius
    Except.ok
      { agents := (agents.filter fun a => decide (a.id ≠ agent.id)).map fun a =>
          { id := a.id, pos := a.pos, distance := calculateDistance agent.pos a.pos }
        structures := structures.map fun s =>
          { sid := s.sid, pos := s.pos, distance := calculateDistance agent.pos s.pos } }

/-- The enterHabitat fields that shape the nearby-agents list. -/
structure EnterResult where
  alreadyIn : Bool
  position : Pos
  nearbyAgents : List AgentRow

/-- enterHabitat from spatial.js, the parts shaping the returned
nearby-agents list: when already in the habitat, return the unfiltered
nearby agents around the current position; on a fresh entry, store the
spawn position (making the agent active in the table), query nearby
agents around the spawn and drop the entering agent itself.  Structures,
logging and broadcast are elided. -/
noncomputable def enterHabitat (world : List AgentRow) (agent : AgentRow)
    (spawnPos : Pos) : EnterResult :=
  if agent.inHabitat then
    { alreadyIn := true, position := agent.pos
      nearbyAgents := getNearbyAgents world agent.pos 100 }
  else
    let worldAfter := world.map fun r =>
      if r.id = agent.id then { r with pos := spawnPos, inHabitat := true } else r
    { alreadyIn := false, position := spawnPos
      nearbyAgents := (getNearbyAgents worldAfter spawnPos 100).filter fun a =>
        decide (a.id ≠ agent.id) }

/-- A proposed structure size. -/
structure BoxSize where
  width : ℝ
  length : ℝ
  height : ℝ

/-- checkCollision from spatial.js, the per-pair verdict: the proposed
box at p with the given size overlaps the candidate structure when the
centre distances are below the half-size sums on the x (width), y
(height) and z (length) axes simultaneously. -/
def overlapVerdict (p : Pos) (size : BoxSize) (s : StructRow) : Prop :=
  |p.x - s.pos.x| < (size.width + s.width) / 2 ∧
  |p.y - s.pos.y| < (size.height + s.height) / 2 ∧
  |p.z - s.pos.z| < (size.length + s.length) / 2

noncomputable instance (p : Pos) (size : BoxSize) (s : StructRow) :
    Decidable (overlapVerdict p size s) := by
  unfold overlapVerdict; infer_instance

/-- One axis projection of two boxes (centres c1, c2; extents w1, w2)
overlapping: the two open intervals share a common point. -/
def axisOverlap (c1 w1 c2 w2 : ℝ) : Prop :=
  ∃ t : ℝ, c1 - w1 / 2 < t ∧ t < c1 + w1 / 2 ∧ c2 - w2 / 2 < t ∧ t < c2 + w2 / 2

/-- checkCollision from spatial.js, the scan over candidate structures:
report the id of the first overlapping structure. -/
noncomputable def findOverlap (p : Pos) (size : BoxSize) : List StructRow → Option Nat
  | [] => none
  | s :: rest => if overlapVerdict p size s then some s.sid else findOverlap p size rest

/-- checkCollision from spatial.js: fetch candidates within the derived
radius (largest half-dimension plus COLLISION_CHECK_RADIUS = 3), then
scan them for the first overlap. -/
noncomputable def checkCollision (structs : List StructRow) (p : Pos) (size : BoxSize) :
    Option Nat :=
  let radius := max size.width (max size.length size.height) / 2 + 3
  findOverlap p size (getNearbyStructures structs p radius)

/-- A row of the positions table as the inactivity sweep reads it. -/
structure SweepRow where
  agentId : Nat
  inHabitat : Bool
  lastUpdate : ℤ

/-- markInactiveAgents from database.js, per-row effect of the UPDATE:
flip in_habitat off exactly when the row is active and its last update is
older than the cutoff. -/
def sweepRow (cutoff : ℤ) (r : SweepRow) : SweepRow :=
  if r.inHabitat && decide (r.lastUpdate < cutoff) then { r with inHabitat := false } else r

/-- markInactiveAgents from database.js together with the notifying cron
loop of server.js: returns the updated positions table and the returned
agent ids; the cron emits exactly one left/exit notification per
returned id. -/
def markInactiveAgents (cutoff : ℤ) (rows : List SweepRow) : List SweepRow × List Nat :=
  (rows.map (sweepRow cutoff),
   (rows.filter fun r => r.inHabitat && decide (r.lastUpdate < cutoff)).map
     (fun r => r.agentId))

/-- A follow relation as stored in the hot cache. -/
structure FollowRelation where
  targetId : Nat
  distance : ℝ
  ttlSeconds : Nat

/-- followAgent from spatial.js: reject when either record is missing,
when either party is outside the habitat, or on self-follow; otherwise
clamp the desired distance into [5, 50] (a missing — or falsy 0 —
distance defaults to 10) and write the relation with a 3600-second
TTL. -/
noncomputable def followAgent (agentId targetId : Nat) (agent target : Option Agent)
    (distance : Option ℝ) : Except String FollowRelation :=
  match agent, target with
  | some a, some t =>
    if a.inHabitat = false ∨ t.inHabitat = false then
      Except.error ("Both agents must be in the habitat")
    else if agentId = targetId then Except.error ("Cannot follow yourself")
    else Except.ok
      { targetId := targetId
        distance := max 5 (min (jsOrDefault distance 10) 50)
        ttlSeconds := 3600 }
  | _, _ => Except.error ("Agent or target not found")

/-- The mutable fields accepted by updatePosition (optional fields have
the defaults the source destructuring applies). -/
structure PositionData where
  x : ℝ
  y : ℝ
  z : ℝ
  velocityX : ℝ := 0
  velocityY : ℝ := 0
  velocityZ : ℝ := 0
  yaw : ℝ := 0
  pitch : ℝ := 0
  roll : ℝ := 0
  animation : String := "idle"
  inHabitatOpt : Option Bool := none

/-- A durable row of the positions table. -/
structure PosRecord where
  agentId : Nat
  pos : Pos
  velocityX : ℝ
  velocityY : ℝ
  velocityZ : ℝ
  yaw : ℝ
  pitch : ℝ
  roll : ℝ
  animation : String
  inHabitat : Bool

/-- The SET clause of updatePosition on one matching row: replace the
mutable fields; COALESCE keeps the stored in_habitat when none is
supplied. -/
def applyPositionData (d : PositionData) (r : PosRecord) : PosRecord :=
  { r with
    pos := ⟨d.x, d.y, d.z⟩
    velocityX := d.velocityX
    velocityY := d.velocityY
    velocityZ := d.velocityZ
    yaw := d.yaw
    pitch := d.pitch
    roll := d.roll
    animation := d.animation
    inHabitat := d.inHabitatOpt.getD r.inHabitat }

/-- The hot-cache snapshot updatePosition writes under pos:<agentId> with
a 300-second TTL (its in_habitat defaults to true when not supplied). -/
structure CacheEntry where
  agentId : Nat
  data : PositionData
  inHabitat : Bool
  ttlSeconds : Nat

/-- The cache snapshot built by updatePosition. -/
def cacheSnapshot (agentId : Nat) (d : PositionData) : CacheEntry :=
  { agentId := agentId, data := d, inHabitat := d.inHabitatOpt.getD true, ttlSeconds := 300 }

/-- updatePosition from database.js: an UPDATE over the positions table
keyed by agent id — rows that do not match are untouched, and a missing
row raises no error — followed by the hot-cache write.  Only
infrastructure failures can throw, so the data path always returns ok. -/
def updatePosition (rows : List PosRecord) (agentId : Nat) (d : PositionData) :
    Except String (List PosRecord × CacheEntry) :=
  Except.ok
    (rows.map fun r => if r.agentId = agentId then applyPositionData d r else r,
     cacheSnapshot agentId d)

end Moltworld

namespace Moltworld

lemma calculateDistance_nonneg (p q : Pos) : 0 ≤ calculateDistance p q :=
  Real.sqrt_nonneg _

lemma calculateDistance_comm (p q : Pos) : calculateDistance p q = calculateDistance q p := by
  unfold calculateDistance
  congr 1
  ring

lemma inBounds_clampPosition (x y z : ℝ) : inBounds (clampPosition x y z) := by
  unfold inBounds clampPosition
  refine ⟨le_max_left _ _, ?_, le_max_left _ _, ?_, le_max_left _ _, ?_⟩ <;>
    exact max_le (by norm_num) (min_le_left _ _)

lemma clampPosition_of_inBounds {x y z : ℝ} (h : inBounds ⟨x, y, z⟩) :
    clampPosition x y z = ⟨x, y, z⟩ := by
  obtain ⟨h1, h2, h3, h4, h5, h6⟩ := h
  unfold clampPosition
  congr 1 <;> dsimp only at *
  · rw [min_eq_right h2, max_eq_right h1]
  · rw [min_eq_right h4, max_eq_right h3]
  · rw [min_eq_right h6, max_eq_right h5]

lemma convex_coord {lo hi a b s : ℝ} (ha1 : lo ≤ a) (ha2 : a ≤ hi) (hb1 : lo ≤ b)
    (hb2 : b ≤ hi) (hs0 : 0 ≤ s) (hs1 : s ≤ 1) :
    lo ≤ a + (b - a) * s ∧ a + (b - a) * s ≤ hi := by
  constructor <;> nlinarith

lemma calculateDistance_xaxis (a b y z : ℝ) :
    calculateDistance ⟨a, y, z⟩ ⟨b, y, z⟩ = |a - b| := by
  unfold calculateDistance
  simp only [sub_self, mul_zero, add_zero]
  rw [show (a - b) * (a - b) = (a - b) ^ 2 by ring]
  exact Real.sqrt_sq_eq_abs _

lemma inBounds_clampMovement (oldPos newPos : Pos) (dt : ℝ) (h : inBounds newPos) :
    inBounds (clampMovement oldPos newPos dt) := by
  simp only [clampMovement]
  split_ifs with h1
  · exact h
  · exact inBounds_clampPosition _ _ _

lemma validatePosition_eq_none_iff (x y z : ℝ) :
    validatePosition x y z = none ↔ inBounds ⟨x, y, z⟩ := by
  unfold validatePosition inBounds
  split_ifs with h1 h2 h3
  · simp only [reduceCtorEq, false_iff]
    rintro ⟨hx1, hx2, -⟩
    rcases h1 with h | h <;> linarith
  · simp only [reduceCtorEq, false_iff]
    rintro ⟨-, -, hy1, hy2, -⟩
    rcases h2 with h | h <;> linarith
  · simp only [reduceCtorEq, false_iff]
    rintro ⟨-, -, -, -, hz1, hz2⟩
    rcases h3 with h | h <;> linarith
  · push_neg at h1 h2 h3
    simp only [true_iff]
    exact ⟨h1.1, h1.2, h2.1, h2.2, h3.1, h3.2⟩

/-- C1: the claim states an out-of-bounds movement proposal is not
rejected and is stored clamped into bounds; the code instead rejects it:
at the concrete input of the claim — agent at (0,50,0), 1s elapsed,
proposal (1000,50,0) — moveAgent throws the X-bounds validation error and
stores nothing. -/
theorem moveAgent_oob_rejected_cex :
    moveAgent ⟨⟨0, 50, 0⟩, true⟩ ⟨1000, 50, 0⟩ 1 =
      Except.error ("X must be between -500 and 500") := by
  have hv : validatePosition (1000 : ℝ) 50 0 = some ("X must be between -500 and 500") := by
    unfold validatePosition
    rw [if_pos (by norm_num)]
  unfold moveAgent
  rw [if_neg (by simp)]
  simp only [hv]

/-- C1 (amended): for every movement request by an active agent whose
proposed position lies outside the world bounds, the request is rejected
with a validation error and no position is stored. -/
theorem moveAgent_oob_rejected (a : Agent) (p : Pos) (dt : ℝ)
    (ha : a.inHabitat = true) (hp : ¬ inBounds p) :
    ∃ e, moveAgent a p dt = Except.error e := by
  obtain ⟨e, he⟩ : ∃ e, validatePosition p.x p.y p.z = some e := by
    rcases h : validatePosition p.x p.y p.z with - | e
    · exact absurd ((validatePosition_eq_none_iff p.x p.y p.z).mp h) hp
    · exact ⟨e, rfl⟩
  refine ⟨e, ?_⟩
  unfold moveAgent
  rw [if_neg (by simp [ha])]
  simp only [he]

/-- C1 witness: the amended theorem applied at the concrete input of the
claim. -/
theorem moveAgent_oob_rejected_witness :
    (⟨⟨0, 50, 0⟩, true⟩ : Agent).inHabitat = true ∧ ¬ inBounds ⟨1000, 50, 0⟩ ∧
      ∃ e, moveAgent ⟨⟨0, 50, 0⟩, true⟩ ⟨1000, 50, 0⟩ 1 = Except.error e :=
  ⟨rfl, by norm_num [inBounds],
    moveAgent_oob_rejected ⟨⟨0, 50, 0⟩, true⟩ ⟨1000, 50, 0⟩ 1 rfl (by norm_num [inBounds])⟩

/-- C2: a movement proposal whose implied speed is at most the max speed
(50) is stored unchanged; one whose implied speed exceeds it is stored as
the previous position plus the displacement vector scaled by
(50 × elapsed / distance), a point on the straight segment between old
and proposed position. -/
theorem moveAgent_speed_clamp (a : Agent) (p : Pos) (dt : ℝ)
    (ha : a.inHabitat = true) (hold : inBounds a.pos) (hp : inBounds p) (hdt : 0 < dt) :
    (calculateDistance a.pos p / dt ≤ 50 → moveAgent a p dt = Except.ok p) ∧
    (50 < calculateDistance a.pos p / dt →
      moveAgent a p dt = Except.ok
        ⟨a.pos.x + (p.x - a.pos.x) * (50 * dt / calculateDistance a.pos p),
         a.pos.y + (p.y - a.pos.y) * (50 * dt / calculateDistance a.pos p),
         a.pos.z + (p.z - a.pos.z) * (50 * dt / calculateDistance a.pos p)⟩) := by
  have hvp : validatePosition p.x p.y p.z = none :=
    (validatePosition_eq_none_iff p.x p.y p.z).mpr hp
  constructor
  · intro hle
    unfold moveAgent
    rw [if_neg (by simp [ha])]
    simp only [hvp]
    rw [if_pos (show validateSpeed a.pos p dt from Or.inr hle)]
  · intro hgt
    have h50 : 50 * dt < calculateDistance a.pos p := (lt_div_iff₀ hdt).mp hgt
    have hD : 0 < calculateDistance a.pos p :=
      lt_trans (by positivity) h50
    have hns : ¬ validateSpeed a.pos p dt := by
      unfold validateSpeed
      push_neg
      exact ⟨hdt, hgt⟩
    unfold moveAgent
    rw [if_neg (by simp [ha])]
    simp only [hvp]
    rw [if_neg hns]
    congr 1
    simp only [clampMovement]
    have hdist : Real.sqrt ((p.x - a.pos.x) * (p.x - a.pos.x) +
        (p.y - a.pos.y) * (p.y - a.pos.y) + (p.z - a.pos.z) * (p.z - a.pos.z)) =
        calculateDistance a.pos p := calculateDistance_comm p a.pos
    rw [hdist, if_neg (not_le.mpr h50)]
    apply clampPosition_of_inBounds
    obtain ⟨hax1, hax2, hay1, hay2, haz1, haz2⟩ := hold
    obtain ⟨hpx1, hpx2, hpy1, hpy2, hpz1, hpz2⟩ := hp
    have hs0 : 0 ≤ 50 * dt / calculateDistance a.pos p :=
      div_nonneg (by positivity) hD.le
    have hs1 : 50 * dt / calculateDistance a.pos p ≤ 1 :=
      (div_le_one hD).mpr h50.le
    exact ⟨(convex_coord hax1 hax2 hpx1 hpx2 hs0 hs1).1,
      (convex_coord hax1 hax2 hpx1 hpx2 hs0 hs1).2,
      (convex_coord hay1 hay2 hpy1 hpy2 hs0 hs1).1,
      (convex_coord hay1 hay2 hpy1 hpy2 hs0 hs1).2,
      (convex_coord haz1 haz2 hpz1 hpz2 hs0 hs1).1,
      (convex_coord haz1 haz2 hpz1 hpz2 hs0 hs1).2⟩

/-- C2 witness: agent at (0,50,0), proposal (300,50,0) with 1s elapsed is
speed-clamped to (50,50,0). -/
theorem moveAgent_speed_clamp_witness :
    (⟨⟨0, 50, 0⟩, true⟩ : Agent).inHabitat = true ∧ inBounds ⟨0, 50, 0⟩ ∧
      inBounds ⟨300, 50, 0⟩ ∧ (0 : ℝ) < 1 ∧
      50 < calculateDistance ⟨0, 50, 0⟩ ⟨300, 50, 0⟩ / 1 ∧
      moveAgent ⟨⟨0, 50, 0⟩, true⟩ ⟨300, 50, 0⟩ 1 = Except.ok ⟨50, 50, 0⟩ := by
  have hd : calculateDistance ⟨0, 50, 0⟩ ⟨300, 50, 0⟩ = 300 := by
    unfold calculateDistance
    norm_num
    rw [show (90000 : ℝ) = 300 ^ 2 by norm_num]
    exact Real.sqrt_sq (by norm_num)
  refine ⟨rfl, by norm_num [inBounds], by norm_num [inBounds], by norm_num,
    by rw [hd]; norm_num, ?_⟩
  have h := (moveAgent_speed_clamp ⟨⟨0, 50, 0⟩, true⟩ ⟨300, 50, 0⟩ 1 rfl
    (by norm_num [inBounds]) (by norm_num [inBounds]) (by norm_num)).2
    (by rw [hd]; norm_num)
  rw [hd] at h
  norm_num at h
  exact h

/-- C3: every write path that stores an agent position — explicit
movement, enter-habitat spawn point selection, follow-tick movement —
stores coordinates inside the world bounds. -/
theorem stored_positions_inBounds :
    (∀ (a : Agent) (p : Pos) (dt : ℝ) (r : Pos),
      moveAgent a p dt = Except.ok r → inBounds r) ∧
    (∀ (pref : Option String) (ub1 ub2 ub3 us1 us2 us3 : ℝ),
      inBounds (getSpawnPosition pref ub1 ub2 ub3 us1 us2 us3)) ∧
    (∀ (agent target : Pos) (d : ℝ) (p : Pos),
      followStep agent target d = some p → inBounds p) := by
  refine ⟨?_, ?_, ?_⟩
  · intro a p dt r h
    unfold moveAgent at h
    by_cases h1 : a.inHabitat = false
    · rw [if_pos h1] at h
      exact absurd h (by simp)
    · rw [if_neg h1] at h
      cases hv : validatePosition p.x p.y p.z with
      | some e =>
        rw [hv] at h
        exact absurd h (by simp)
      | none =>
        rw [hv] at h
        have hp : inBounds p := (validatePosition_eq_none_iff p.x p.y p.z).mp hv
        by_cases h2 : validateSpeed a.pos p dt
        · rw [if_pos h2] at h
          injection h with h3
          rw [← h3]
          exact hp
        · rw [if_neg h2] at h
          injection h with h3
          rw [← h3]
          exact inBounds_clampMovement a.pos p dt hp
  · intro pref ub1 ub2 ub3 us1 us2 us3
    simp only [getSpawnPosition]
    exact inBounds_clampPosition _ _ _
  · intro agent target d p h
    simp only [followStep] at h
    split_ifs at h with h1
    · injection h with h3
      rw [← h3]
      exact inBounds_clampPosition _ _ _

/-- C3 witness: the three write paths applied at concrete inputs. -/
theorem stored_positions_inBounds_witness :
    moveAgent ⟨⟨0, 50, 0⟩, true⟩ ⟨10, 50, 0⟩ 1 = Except.ok ⟨10, 50, 0⟩ ∧
      followStep ⟨0, 50, 0⟩ ⟨30, 50, 0⟩ 10 = some ⟨20, 50, 0⟩ ∧
      inBounds (⟨10, 50, 0⟩ : Pos) ∧
      inBounds (getSpawnPosition (some ("coral_reef")) 0 0 0 0 0 0) ∧
      inBounds (⟨20, 50, 0⟩ : Pos) := by
  have hd10 : calculateDistance ⟨0, 50, 0⟩ ⟨10, 50, 0⟩ = 10 := by
    rw [calculateDistance_xaxis]
    norm_num
  have hmv : moveAgent ⟨⟨0, 50, 0⟩, true⟩ ⟨10, 50, 0⟩ 1 = Except.ok ⟨10, 50, 0⟩ := by
    unfold moveAgent
    rw [if_neg (by simp)]
    have hvp : validatePosition (10 : ℝ) 50 0 = none := by
      unfold validatePosition
      rw [if_neg (by norm_num), if_neg (by norm_num), if_neg (by norm_num)]
    simp only [hvp]
    rw [if_pos (show validateSpeed ⟨0, 50, 0⟩ ⟨10, 50, 0⟩ 1 from Or.inr (by rw [hd10]; norm_num))]
  have hd30 : calculateDistance ⟨0, 50, 0⟩ ⟨30, 50, 0⟩ = 30 := by
    rw [calculateDistance_xaxis]
    norm_num
  have hfs : followStep ⟨0, 50, 0⟩ ⟨30, 50, 0⟩ 10 = some ⟨20, 50, 0⟩ := by
    simp only [followStep, hd30]
    rw [if_pos (by norm_num)]
    have hnorm : Real.sqrt (((30 : ℝ) - 0) * ((30 : ℝ) - 0) +
        ((50 : ℝ) - 50) * ((50 : ℝ) - 50) + ((0 : ℝ) - 0) * ((0 : ℝ) - 0)) = 30 := by
      rw [show ((30 : ℝ) - 0) * ((30 : ℝ) - 0) + ((50 : ℝ) - 50) * ((50 : ℝ) - 50) +
        ((0 : ℝ) - 0) * ((0 : ℝ) - 0) = 30 ^ 2 by norm_num]
      exact Real.sqrt_sq (by norm_num)
    rw [hnorm]
    have hmin : min (20 : ℝ) (30 - 10) = 20 := by norm_num
    rw [hmin]
    have hcl : clampPosition ((0 : ℝ) + (30 - 0) * (20 / 30)) ((50 : ℝ) + (50 - 50) * (20 / 30))
        ((0 : ℝ) + (0 - 0) * (20 / 30)) = ⟨20, 50, 0⟩ := by
      rw [show (0 : ℝ) + (30 - 0) * (20 / 30) = 20 by norm_num,
        show (50 : ℝ) + (50 - 50) * (20 / 30) = 50 by norm_num,
        show (0 : ℝ) + (0 - 0) * (20 / 30) = 0 by norm_num]
      exact clampPosition_of_inBounds (by norm_num [inBounds])
    rw [hcl]
  refine ⟨hmv, hfs, ?_, ?_, ?_⟩
  · exact stored_positions_inBounds.1 ⟨⟨0, 50, 0⟩, true⟩ ⟨10, 50, 0⟩ 1 ⟨10, 50, 0⟩ hmv
  · exact stored_positions_inBounds.2.1 (some ("coral_reef")) 0 0 0 0 0 0
  · exact stored_positions_inBounds.2.2 ⟨0, 50, 0⟩ ⟨30, 50, 0⟩ 10 ⟨20, 50, 0⟩ hfs

/-- C6: the follow tick moves the follower only when its current distance
to the target exceeds the desired distance plus the tolerance 2 (within
tolerance it emits nothing); when it moves, the new distance equals the
old distance minus the step min 20 (current − desired), so the distance
to the target strictly decreases but never drops below the desired
distance. -/
theorem followStep_spec (agent target : Pos) (distance : ℝ)
    (hA : inBounds agent) (hT : inBounds target) (hd : 0 ≤ distance) :
    (calculateDistance agent target ≤ distance + 2 →
      followStep agent target distance = none) ∧
    (∀ p, followStep agent target distance = some p →
      distance + 2 < calculateDistance agent target ∧
      calculateDistance p target =
        calculateDistance agent target -
          min 20 (calculateDistance agent target - distance) ∧
      calculateDistance p target < calculateDistance agent target ∧
      distance ≤ calculateDistance p target) := by
  constructor
  · intro hle
    simp only [followStep]
    rw [if_neg (not_lt.mpr hle)]
  · intro p h
    simp only [followStep] at h
    split_ifs at h with hgt
    have hDpos : 0 < calculateDistance agent target := by
      have := hgt
      linarith
    have hDne : calculateDistance agent target ≠ 0 := ne_of_gt hDpos
    have hnorm : Real.sqrt ((target.x - agent.x) * (target.x - agent.x) +
        (target.y - agent.y) * (target.y - agent.y) +
        (target.z - agent.z) * (target.z - agent.z)) = calculateDistance agent target :=
      calculateDistance_comm target agent
    rw [hnorm] at h
    set f := min 20 (calculateDistance agent target - distance) /
      calculateDistance agent target with hf
    have hms_pos : 0 < min 20 (calculateDistance agent target - distance) :=
      lt_min (by norm_num) (by linarith)
    have hms_le : min 20 (calculateDistance agent target - distance) ≤
        calculateDistance agent target - distance := min_le_right _ _
    have hf0 : 0 ≤ f := div_nonneg hms_pos.le hDpos.le
    have hf1 : f ≤ 1 := (div_le_one hDpos).mpr (by linarith)
    obtain ⟨hax1, hax2, hay1, hay2, haz1, haz2⟩ := hA
    obtain ⟨htx1, htx2, hty1, hty2, htz1, htz2⟩ := hT
    have hclamp : clampPosition (agent.x + (target.x - agent.x) * f)
        (agent.y + (target.y - agent.y) * f) (agent.z + (target.z - agent.z) * f) =
        ⟨agent.x + (target.x - agent.x) * f, agent.y + (target.y - agent.y) * f,
         agent.z + (target.z - agent.z) * f⟩ :=
      clampPosition_of_inBounds ⟨(convex_coord hax1 hax2 htx1 htx2 hf0 hf1).1,
        (convex_coord hax1 hax2 htx1 htx2 hf0 hf1).2,
        (convex_coord hay1 hay2 hty1 hty2 hf0 hf1).1,
        (convex_coord hay1 hay2 hty1 hty2 hf0 hf1).2,
        (convex_coord haz1 haz2 htz1 htz2 hf0 hf1).1,
        (convex_coord haz1 haz2 htz1 htz2 hf0 hf1).2⟩
    rw [hclamp] at h
    injection h with h3
    rw [← h3]
    have hkey : calculateDistance ⟨agent.x + (target.x - agent.x) * f,
        agent.y + (target.y - agent.y) * f, agent.z + (target.z - agent.z) * f⟩ target
        = (1 - f) * calculateDistance agent target := by
      simp only [calculateDistance]
      rw [show (agent.x + (target.x - agent.x) * f - target.x) *
            (agent.x + (target.x - agent.x) * f - target.x) +
          (agent.y + (target.y - agent.y) * f - target.y) *
            (agent.y + (target.y - agent.y) * f - target.y) +
          (agent.z + (target.z - agent.z) * f - target.z) *
            (agent.z + (target.z - agent.z) * f - target.z) =
          (1 - f) ^ 2 * ((agent.x - target.x) * (agent.x - target.x) +
            (agent.y - target.y) * (agent.y - target.y) +
            (agent.z - target.z) * (agent.z - target.z)) by ring]
      rw [Real.sqrt_mul (sq_nonneg _), Real.sqrt_sq_eq_abs,
        abs_of_nonneg (by linarith : (0 : ℝ) ≤ 1 - f)]
    have hfD : f * calculateDistance agent target =
        min 20 (calculateDistance agent target - distance) :=
      div_mul_cancel₀ _ hDne
    have hexp : (1 - f) * calculateDistance agent target =
        calculateDistance agent target -
          min 20 (calculateDistance agent target - distance) := by
      rw [sub_mul, one_mul, hfD]
    refine ⟨hgt, ?_, ?_, ?_⟩
    · rw [hkey, hexp]
    · rw [hkey, hexp]
      linarith
    · rw [hkey, hexp]
      linarith

/-- C6 witness: follower at distance 5 from the target with desired
distance 10 is within tolerance, so no movement is emitted. -/
theorem followStep_spec_witness :
    inBounds ⟨0, 50, 0⟩ ∧ inBounds ⟨5, 50, 0⟩ ∧ (0 : ℝ) ≤ 10 ∧
      calculateDistance ⟨0, 50, 0⟩ ⟨5, 50, 0⟩ ≤ 10 + 2 ∧
      followStep ⟨0, 50, 0⟩ ⟨5, 50, 0⟩ 10 = none := by
  have hd : calculateDistance ⟨0, 50, 0⟩ ⟨5, 50, 0⟩ = 5 := by
    rw [calculateDistance_xaxis]
    norm_num
  refine ⟨by norm_num [inBounds], by norm_num [inBounds], by norm_num,
    by rw [hd]; norm_num, ?_⟩
  exact (followStep_spec ⟨0, 50, 0⟩ ⟨5, 50, 0⟩ 10 (by norm_num [inBounds])
    (by norm_num [inBounds]) (by norm_num)).1 (by rw [hd]; norm_num)

lemma getNearbyAgents_mem {world : List AgentRow} {q : Pos} {radius : ℝ} {a : AgentRow}
    (h : a ∈ getNearbyAgents world q radius) :
    a ∈ world ∧ a.inHabitat = true ∧ calculateDistance a.pos q ≤ radius := by
  unfold getNearbyAgents at h
  have h2 : a ∈ (world.filter fun a =>
      a.inHabitat && decide (calculateDistance a.pos q ≤ radius)).insertionSort
        (agentDistLE q) := List.take_subset _ _ h
  rw [List.mem_insertionSort, List.mem_filter] at h2
  obtain ⟨hw, hc⟩ := h2
  rw [Bool.and_eq_true, decide_eq_true_eq] at hc
  exact ⟨hw, hc.1, hc.2⟩

lemma getNearbyAgents_sorted (world : List AgentRow) (q : Pos) (radius : ℝ) :
    (getNearbyAgents world q radius).Pairwise (agentDistLE q) := by
  unfold getNearbyAgents
  haveI : IsTotal AgentRow (agentDistLE q) := ⟨fun a b => le_total _ _⟩
  haveI : IsTrans AgentRow (agentDistLE q) := ⟨fun a b c hab hbc => le_trans hab hbc⟩
  exact List.Pairwise.sublist (List.take_sublist _ _) (List.sorted_insertionSort _ _)

lemma getNearbyAgents_len (world : List AgentRow) (q : Pos) (radius : ℝ) :
    (getNearbyAgents world q radius).length ≤ 50 := by
  unfold getNearbyAgents
  rw [List.length_take]
  exact min_le_left _ _

lemma getNearbyStructures_mem {structs : List StructRow} {q : Pos} {radius : ℝ}
    {s : StructRow} (h : s ∈ getNearbyStructures structs q radius) :
    s ∈ structs ∧ calculateDistance s.pos q ≤ radius := by
  unfold getNearbyStructures at h
  have h2 : s ∈ (structs.filter fun s =>
      decide (calculateDistance s.pos q ≤ radius)).insertionSort
        (structDistLE q) := List.take_subset _ _ h
  rw [List.mem_insertionSort, List.mem_filter] at h2
  obtain ⟨hw, hc⟩ := h2
  rw [decide_eq_true_eq] at hc
  exact ⟨hw, hc⟩

lemma getNearbyStructures_sorted (structs : List StructRow) (q : Pos) (radius : ℝ) :
    (getNearbyStructures structs q radius).Pairwise (structDistLE q) := by
  unfold getNearbyStructures
  haveI : IsTotal StructRow (structDistLE q) := ⟨fun a b => le_total _ _⟩
  haveI : IsTrans StructRow (structDistLE q) := ⟨fun a b c hab hbc => le_trans hab hbc⟩
  exact List.Pairwise.sublist (List.take_sublist _ _) (List.sorted_insertionSort _ _)

lemma getNearbyStructures_len (structs : List StructRow) (q : Pos) (radius : ℝ) :
    (getNearbyStructures structs q radius).length ≤ 100 := by
  unfold getNearbyStructures
  rw [List.length_take]
  exact min_le_left _ _

lemma axisOverlap_iff {c1 w1 c2 w2 : ℝ} (h1 : 0 < w1) (h2 : 0 < w2) :
    axisOverlap c1 w1 c2 w2 ↔ |c1 - c2| < (w1 + w2) / 2 := by
  constructor
  · rintro ⟨t, ht1, ht2, ht3, ht4⟩
    rw [abs_lt]
    constructor <;> linarith
  · intro h
    rw [abs_lt] at h
    refine ⟨(max (c1 - w1 / 2) (c2 - w2 / 2) + min (c1 + w1 / 2) (c2 + w2 / 2)) / 2,
      ?_, ?_, ?_, ?_⟩ <;>
    · rcases max_cases (c1 - w1 / 2) (c2 - w2 / 2) with ⟨hm, hm2⟩ | ⟨hm, hm2⟩ <;>
        rcases min_cases (c1 + w1 / 2) (c2 + w2 / 2) with ⟨hn, hn2⟩ | ⟨hn, hn2⟩ <;>
        rw [hm, hn] <;> linarith

/-- C5: the per-pair collision verdict holds iff the axis projections of
the two boxes overlap on all three axes (for positive sizes); the verdict
is symmetric under swapping the proposed box and the structure; boxes
whose projections are disjoint on some axis never collide; two fully
overlapping (identical, positive-size) boxes always collide; and the
candidate scan reports a collision iff some candidate overlaps. -/
theorem checkCollision_spec (p : Pos) (size : BoxSize) (s : StructRow) (i : Nat)
    (hw : 0 < size.width) (hl : 0 < size.length) (hh : 0 < size.height)
    (hsw : 0 < s.width) (hsl : 0 < s.length) (hsh : 0 < s.height) :
    (overlapVerdict p size s ↔
      (axisOverlap p.x size.width s.pos.x s.width ∧
       axisOverlap p.y size.height s.pos.y s.height ∧
       axisOverlap p.z size.length s.pos.z s.length)) ∧
    (overlapVerdict p size s ↔
      overlapVerdict s.pos ⟨s.width, s.length, s.height⟩
        ⟨i, p, size.width, size.length, size.height⟩) ∧
    ((¬ axisOverlap p.x size.width s.pos.x s.width ∨
      ¬ axisOverlap p.y size.height s.pos.y s.height ∨
      ¬ axisOverlap p.z size.length s.pos.z s.length) → ¬ overlapVerdict p size s) ∧
    ((p = s.pos ∧ size.width = s.width ∧ size.length = s.length ∧ size.height = s.height) →
      overlapVerdict p size s) ∧
    (∀ candidates : List StructRow,
      findOverlap p size candidates ≠ none ↔ ∃ t ∈ candidates, overlapVerdict p size t) := by
  have hiff : overlapVerdict p size s ↔
      (axisOverlap p.x size.width s.pos.x s.width ∧
       axisOverlap p.y size.height s.pos.y s.height ∧
       axisOverlap p.z size.length s.pos.z s.length) := by
    rw [axisOverlap_iff hw hsw, axisOverlap_iff hh hsh, axisOverlap_iff hl hsl]
    exact Iff.rfl
  refine ⟨hiff, ?_, ?_, ?_, ?_⟩
  · unfold overlapVerdict
    dsimp only
    constructor <;> rintro ⟨ha, hb, hc⟩ <;> refine ⟨?_, ?_, ?_⟩ <;>
      rw [abs_sub_comm] <;> linarith
  · intro hdisj hov
    have h3 := hiff.mp hov
    rcases hdisj with h | h | h
    · exact h h3.1
    · exact h h3.2.1
    · exact h h3.2.2
  · rintro ⟨hp, hww, hll, hhh⟩
    unfold overlapVerdict
    rw [hp, hww, hll, hhh]
    simp only [sub_self, abs_zero]
    refine ⟨?_, ?_, ?_⟩ <;> linarith
  · intro candidates
    induction candidates with
    | nil => simp [findOverlap]
    | cons hd tl ih =>
      by_cases hov : overlapVerdict p size hd
      · simp only [findOverlap]
        rw [if_pos hov]
        constructor
        · intro _
          exact ⟨hd, List.mem_cons_self _ _, hov⟩
        · intro _
          simp
      · simp only [findOverlap]
        rw [if_neg hov]
        rw [ih]
        constructor
        · rintro ⟨t, ht, hvt⟩
          exact ⟨t, List.mem_cons_of_mem _ ht, hvt⟩
        · rintro ⟨t, ht, hvt⟩
          rcases List.mem_cons.mp ht with rfl | ht2
          · exact absurd hvt hov
          · exact ⟨t, ht2, hvt⟩

/-- C5 witness: the pair specification applied to two concrete
positive-size boxes. -/
theorem checkCollision_spec_witness :
    (0 : ℝ) < (⟨10, 12, 14⟩ : BoxSize).width ∧ (0 : ℝ) < (⟨10, 12, 14⟩ : BoxSize).length ∧
    (0 : ℝ) < (⟨10, 12, 14⟩ : BoxSize).height ∧
    (0 : ℝ) < (⟨1, ⟨2, 50, 2⟩, 8, 6, 4⟩ : StructRow).width ∧
    (0 : ℝ) < (⟨1, ⟨2, 50, 2⟩, 8, 6, 4⟩ : StructRow).length ∧
    (0 : ℝ) < (⟨1, ⟨2, 50, 2⟩, 8, 6, 4⟩ : StructRow).height ∧
    (overlapVerdict ⟨0, 50, 0⟩ ⟨10, 12, 14⟩ ⟨1, ⟨2, 50, 2⟩, 8, 6, 4⟩ ↔
      overlapVerdict (⟨2, 50, 2⟩ : Pos) ⟨8, 6, 4⟩ ⟨0, ⟨0, 50, 0⟩, 10, 12, 14⟩) := by
  refine ⟨by norm_num, by norm_num, by norm_num, by norm_num, by norm_num, by norm_num, ?_⟩
  exact (checkCollision_spec ⟨0, 50, 0⟩ ⟨10, 12, 14⟩ ⟨1, ⟨2, 50, 2⟩, 8, 6, 4⟩ 0
    (by norm_num) (by norm_num) (by norm_num) (by norm_num) (by norm_num) (by norm_num)).2.1

/-- C7: the inactivity sweep flips to inactive exactly the rows that are
active with a last update older than the cutoff, returns exactly one id
per newly-inactivated agent (so the cron emits one left notification
each), leaves other rows untouched, and is idempotent: sweeping the
already-swept table changes no row and returns no ids. -/
theorem markInactiveAgents_spec (cutoff : ℤ) (rows : List SweepRow)
    (hnd : (rows.map (fun r => r.agentId)).Nodup) :
    (∀ r : SweepRow, r.inHabitat = true → r.lastUpdate < cutoff →
      sweepRow cutoff r = { r with inHabitat := false }) ∧
    (∀ r : SweepRow, ¬ (r.inHabitat = true ∧ r.lastUpdate < cutoff) →
      sweepRow cutoff r = r) ∧
    (∀ n, n ∈ (markInactiveAgents cutoff rows).2 ↔
      ∃ r ∈ rows, r.agentId = n ∧ r.inHabitat = true ∧ r.lastUpdate < cutoff) ∧
    (markInactiveAgents cutoff rows).2.Nodup ∧
    markInactiveAgents cutoff ((markInactiveAgents cutoff rows).1) =
      ((markInactiveAgents cutoff rows).1, []) := by
  have hflip : ∀ r : SweepRow, r.inHabitat = true → r.lastUpdate < cutoff →
      sweepRow cutoff r = { r with inHabitat := false } := by
    intro r h1 h2
    unfold sweepRow
    rw [if_pos (by simp [h1, h2])]
  have hkeep : ∀ r : SweepRow, ¬ (r.inHabitat = true ∧ r.lastUpdate < cutoff) →
      sweepRow cutoff r = r := by
    intro r h
    unfold sweepRow
    rw [if_neg (by simpa [Bool.and_eq_true, decide_eq_true_eq] using h)]
  have hidem : ∀ r : SweepRow, sweepRow cutoff (sweepRow cutoff r) = sweepRow cutoff r := by
    intro r
    by_cases hc : r.inHabitat = true ∧ r.lastUpdate < cutoff
    · rw [hflip r hc.1 hc.2]
      exact hkeep _ (by simp)
    · rw [hkeep r hc]
      exact hkeep r hc
  refine ⟨hflip, hkeep, ?_, ?_, ?_⟩
  · intro n
    constructor
    · intro hn
      simp only [markInactiveAgents, List.mem_map, List.mem_filter, Bool.and_eq_true,
        decide_eq_true_eq] at hn
      obtain ⟨r, ⟨hr, hact, hlu⟩, rfl⟩ := hn
      exact ⟨r, hr, rfl, hact, hlu⟩
    · rintro ⟨r, hr, rfl, hact, hlu⟩
      simp only [markInactiveAgents, List.mem_map, List.mem_filter, Bool.and_eq_true,
        decide_eq_true_eq]
      exact ⟨r, ⟨hr, hact, hlu⟩, rfl⟩
  · have hsub : ((rows.filter fun r => r.inHabitat && decide (r.lastUpdate < cutoff)).map
        (fun r => r.agentId)).Sublist (rows.map (fun r => r.agentId)) :=
      (List.filter_sublist rows).map _
    exact List.Nodup.sublist hsub hnd
  · unfold markInactiveAgents
    refine Prod.ext ?_ ?_
    · show (rows.map (sweepRow cutoff)).map (sweepRow cutoff) = rows.map (sweepRow cutoff)
      rw [List.map_map]
      exact List.map_congr_left fun r _ => hidem r
    · show ((rows.map (sweepRow cutoff)).filter
        (fun r => r.inHabitat && decide (r.lastUpdate < cutoff))).map (fun r => r.agentId) = []
      have hnil : (rows.map (sweepRow cutoff)).filter
          (fun r => r.inHabitat && decide (r.lastUpdate < cutoff)) = [] := by
        rw [List.filter_eq_nil_iff]
        intro a ha
        obtain ⟨r, hr, rfl⟩ := List.mem_map.mp ha
        by_cases hc : r.inHabitat = true ∧ r.lastUpdate < cutoff
        · rw [hflip r hc.1 hc.2]
          simp
        · rw [hkeep r hc]
          simpa [Bool.and_eq_true, decide_eq_true_eq] using hc
      rw [hnil]
      rfl

/-- C7 witness: a three-row table with one stale active row, one fresh
active row and one inactive row, swept at cutoff 50. -/
theorem markInactiveAgents_spec_witness :
    (([⟨1, true, 0⟩, ⟨2, true, 100⟩, ⟨3, false, 0⟩] : List SweepRow).map
      (fun r => r.agentId)).Nodup ∧
    (markInactiveAgents 50 [⟨1, true, 0⟩, ⟨2, true, 100⟩, ⟨3, false, 0⟩]).2 = [1] ∧
    markInactiveAgents 50
        ((markInactiveAgents 50 [⟨1, true, 0⟩, ⟨2, true, 100⟩, ⟨3, false, 0⟩]).1) =
      ((markInactiveAgents 50 [⟨1, true, 0⟩, ⟨2, true, 100⟩, ⟨3, false, 0⟩]).1, []) := by
  refine ⟨by decide, by decide, ?_⟩
  exact (markInactiveAgents_spec 50 [⟨1, true, 0⟩, ⟨2, true, 100⟩, ⟨3, false, 0⟩]
    (by decide)).2.2.2.2

/-- C8: starting a follow rejects self-follow, rejects when either party
is missing or not active — and in every rejected case no relation is
produced — and when accepted stores the relation with the desired
distance clamped into [5, 50] (default 10 when absent) and a 3600-second
TTL. -/
theorem followAgent_spec (agentId targetId : Nat) (a t : Agent) (d : Option ℝ) :
    (agentId = targetId →
      ∀ rel, followAgent agentId targetId (some a) (some t) d ≠ Except.ok rel) ∧
    ((a.inHabitat = false ∨ t.inHabitat = false) →
      ∀ rel, followAgent agentId targetId (some a) (some t) d ≠ Except.ok rel) ∧
    (∀ rel, followAgent agentId targetId none (some t) d ≠ Except.ok rel) ∧
    (∀ rel, followAgent agentId targetId (some a) none d ≠ Except.ok rel) ∧
    (a.inHabitat = true → t.inHabitat = true → agentId ≠ targetId →
      followAgent agentId targetId (some a) (some t) d = Except.ok
        { targetId := targetId
          distance := max 5 (min (jsOrDefault d 10) 50)
          ttlSeconds := 3600 } ∧
      5 ≤ max 5 (min (jsOrDefault d 10) 50) ∧
      max 5 (min (jsOrDefault d 10) 50) ≤ 50 ∧
      (d = none → max 5 (min (jsOrDefault d 10) 50) = 10)) := by
  refine ⟨?_, ?_, ?_, ?_, ?_⟩
  · intro he rel
    simp only [followAgent]
    split_ifs <;> simp
  · intro hin rel
    simp only [followAgent]
    rw [if_pos hin]
    simp
  · intro rel
    simp [followAgent]
  · intro rel
    simp [followAgent]
  · intro h1 h2 h3
    refine ⟨?_, le_max_left _ _, max_le (by norm_num) (min_le_right _ _), ?_⟩
    · simp only [followAgent]
      rw [if_neg (by simp [h1, h2]), if_neg h3]
    · intro hd
      rw [hd]
      rw [show jsOrDefault none 10 = (10 : ℝ) from rfl,
        min_eq_left (by norm_num : (10 : ℝ) ≤ 50),
        max_eq_right (by norm_num : (5 : ℝ) ≤ 10)]

/-- C8 witness: self-follow rejected, inactive party rejected, and an
accepted follow between two distinct active agents with an absent
distance. -/
theorem followAgent_spec_witness :
    ((1 : Nat) = 1 ∧
      ∀ rel, followAgent 1 1 (some ⟨⟨0, 50, 0⟩, true⟩) (some ⟨⟨0, 50, 0⟩, true⟩) none ≠
        Except.ok rel) ∧
    (((⟨⟨0, 50, 0⟩, false⟩ : Agent).inHabitat = false ∨
        (⟨⟨0, 50, 0⟩, true⟩ : Agent).inHabitat = false) ∧
      ∀ rel, followAgent 1 2 (some ⟨⟨0, 50, 0⟩, false⟩) (some ⟨⟨0, 50, 0⟩, true⟩) none ≠
        Except.ok rel) ∧
    ((⟨⟨0, 50, 0⟩, true⟩ : Agent).inHabitat = true ∧ (1 : Nat) ≠ 2 ∧
      followAgent 1 2 (some ⟨⟨0, 50, 0⟩, true⟩) (some ⟨⟨0, 50, 0⟩, true⟩) none =
        Except.ok ⟨2, max 5 (min (jsOrDefault none 10) 50), 3600⟩ ∧
      max 5 (min (jsOrDefault none 10) 50) = 10) := by
  refine ⟨⟨rfl, (followAgent_spec 1 1 ⟨⟨0, 50, 0⟩, true⟩ ⟨⟨0, 50, 0⟩, true⟩ none).1 rfl⟩,
    ⟨Or.inl rfl,
      (followAgent_spec 1 2 ⟨⟨0, 50, 0⟩, false⟩ ⟨⟨0, 50, 0⟩, true⟩ none).2.1 (Or.inl rfl)⟩,
    rfl, by norm_num, ?_, ?_⟩
  · exact ((followAgent_spec 1 2 ⟨⟨0, 50, 0⟩, true⟩ ⟨⟨0, 50, 0⟩, true⟩ none).2.2.2.2
      rfl rfl (by norm_num)).1
  · exact ((followAgent_spec 1 2 ⟨⟨0, 50, 0⟩, true⟩ ⟨⟨0, 50, 0⟩, true⟩ none).2.2.2.2
      rfl rfl (by norm_num)).2.2.2 rfl

/-- C9: the claim states that upserting a position for an unknown entity
id signals an error to the caller; the code instead succeeds silently: on
an empty positions table, updatePosition for id 7 returns ok with the
table unchanged — and even writes a hot-cache snapshot under the unknown
id. -/
theorem updatePosition_unknown_cex :
    updatePosition [] 7 { x := 1, y := 2, z := 3 } =
      Except.ok ([], cacheSnapshot 7 { x := 1, y := 2, z := 3 }) := rfl

/-- C9 (amended): calling the position upsert with an entity id for which
no position record exists creates no record and modifies none, but — far
from signalling an error — returns ok and writes a hot-cache snapshot
under the unknown id. -/
theorem updatePosition_unknown (rows : List PosRecord) (agentId : Nat) (d : PositionData)
    (h : ∀ r ∈ rows, r.agentId ≠ agentId) :
    updatePosition rows agentId d = Except.ok (rows, cacheSnapshot agentId d) := by
  unfold updatePosition
  have hmap : rows.map (fun r => if r.agentId = agentId then applyPositionData d r else r) =
      rows := by
    rw [List.map_congr_left fun r hr => if_neg (h r hr)]
    exact List.map_id rows
  rw [hmap]

/-- C9 witness: the amended theorem applied to a one-row table and a
foreign id. -/
theorem updatePosition_unknown_witness :
    (∀ r ∈ ([⟨1, ⟨0, 50, 0⟩, 0, 0, 0, 0, 0, 0, "idle", true⟩] : List PosRecord),
      r.agentId ≠ 7) ∧
    updatePosition [⟨1, ⟨0, 50, 0⟩, 0, 0, 0, 0, 0, 0, "idle", true⟩] 7
        { x := 1, y := 2, z := 3 } =
      Except.ok ([⟨1, ⟨0, 50, 0⟩, 0, 0, 0, 0, 0, 0, "idle", true⟩],
        cacheSnapshot 7 { x := 1, y := 2, z := 3 }) := by
  have h : ∀ r ∈ ([⟨1, ⟨0, 50, 0⟩, 0, 0, 0, 0, 0, 0, "idle", true⟩] : List PosRecord),
      r.agentId ≠ 7 := by
    intro r hr
    rw [List.mem_singleton] at hr
    rw [hr]
    norm_num
  exact ⟨h, updatePosition_unknown _ 7 { x := 1, y := 2, z := 3 } h⟩

/-- C10: a nearby-entities query never returns the querying agent in its
agents list, and the nearby-agents list of a fresh habitat entry excludes
the entering agent. -/
theorem nearby_excludes_self :
    (∀ (world : List AgentRow) (structs : List StructRow) (agent : AgentRow)
      (radius : Option ℝ) (res : NearbyResult),
      getNearbyEntities world structs agent radius = Except.ok res →
      ∀ e ∈ res.agents, e.id ≠ agent.id) ∧
    (∀ (world : List AgentRow) (agent : AgentRow) (spawnPos : Pos),
      agent.inHabitat = false →
      ∀ e ∈ (enterHabitat world agent spawnPos).nearbyAgents, e.id ≠ agent.id) := by
  constructor
  · intro world structs agent radius res h e he
    unfold getNearbyEntities at h
    split_ifs at h with h1
    injection h with h2
    rw [← h2] at he
    simp only [List.mem_map] at he
    obtain ⟨a, ha, rfl⟩ := he
    rw [List.mem_filter] at ha
    have := ha.2
    rw [decide_eq_true_eq] at this
    exact this
  · intro world agent spawn h e he
    unfold enterHabitat at he
    rw [if_neg (by simp [h])] at he
    rw [List.mem_filter] at he
    have := he.2
    rw [decide_eq_true_eq] at this
    exact this

/-- C10 witness: a query by agent 1 on a world holding only itself, and a
fresh entry by inactive agent 2. -/
theorem nearby_excludes_self_witness :
    getNearbyEntities [] [] ⟨1, ⟨0, 50, 0⟩, true⟩ none = Except.ok ⟨[], []⟩ ∧
    (⟨2, ⟨0, 50, 0⟩, false⟩ : AgentRow).inHabitat = false ∧
    (∀ e ∈ (⟨[], []⟩ : NearbyResult).agents, e.id ≠ 1) ∧
    (∀ e ∈ (enterHabitat [] ⟨2, ⟨0, 50, 0⟩, false⟩ ⟨0, 50, 0⟩).nearbyAgents, e.id ≠ 2) := by
  have h1 : getNearbyEntities [] [] ⟨1, ⟨0, 50, 0⟩, true⟩ none = Except.ok ⟨[], []⟩ := rfl
  refine ⟨h1, rfl, ?_, ?_⟩
  · exact nearby_excludes_self.1 [] [] ⟨1, ⟨0, 50, 0⟩, true⟩ none ⟨[], []⟩ h1
  · exact nearby_excludes_self.2 [] ⟨2, ⟨0, 50, 0⟩, false⟩ ⟨0, 50, 0⟩ rfl

/-- C4: a proximity query by an active agent clamps the radius into
[1, 300] (default 50 when absent); every returned agent and structure
carries its distance from the querying agent and lies within the clamped
radius; both lists are ordered ascending by distance; and they hold at
most 50 agents and at most 100 structures. -/
theorem getNearbyEntities_spec (world : List AgentRow) (structs : List StructRow)
    (agent : AgentRow) (radius : Option ℝ) (res : NearbyResult)
    (hres : getNearbyEntities world structs agent radius = Except.ok res) :
    (1 ≤ max 1 (min (jsOrDefault radius 50) 300) ∧
      max 1 (min (jsOrDefault radius 50) 300) ≤ 300 ∧
      (radius = none → max 1 (min (jsOrDefault radius 50) 300) = 50)) ∧
    (∀ e ∈ res.agents, e.distance = calculateDistance agent.pos e.pos ∧
      e.distance ≤ max 1 (min (jsOrDefault radius 50) 300)) ∧
    res.agents.Pairwise (fun e f => e.distance ≤ f.distance) ∧
    res.agents.length ≤ 50 ∧
    (∀ e ∈ res.structures, e.distance = calculateDistance agent.pos e.pos ∧
      e.distance ≤ max 1 (min (jsOrDefault radius 50) 300)) ∧
    res.structures.Pairwise (fun e f => e.distance ≤ f.distance) ∧
    res.structures.length ≤ 100 := by
  unfold getNearbyEntities at hres
  split_ifs at hres with h1
  injection hres with h2
  subst h2
  refine ⟨⟨le_max_left _ _, max_le (by norm_num) (min_le_right _ _), ?_⟩,
    ?_, ?_, ?_, ?_, ?_, ?_⟩
  · intro hr
    rw [hr, show jsOrDefault none 50 = (50 : ℝ) from rfl,
      min_eq_left (by norm_num : (50 : ℝ) ≤ 300),
      max_eq_right (by norm_num : (1 : ℝ) ≤ 50)]
  · intro e he
    dsimp only at he
    rw [List.mem_map] at he
    obtain ⟨a, ha, rfl⟩ := he
    rw [List.mem_filter] at ha
    refine ⟨rfl, ?_⟩
    have hm := getNearbyAgents_mem ha.1
    rw [calculateDistance_comm]
    exact hm.2.2
  · dsimp only
    rw [List.pairwise_map]
    refine List.Pairwise.imp ?_
      (List.Pairwise.sublist (List.filter_sublist _) (getNearbyAgents_sorted world agent.pos _))
    intro a b hab
    unfold agentDistLE at hab
    dsimp only
    rw [calculateDistance_comm agent.pos a.pos, calculateDistance_comm agent.pos b.pos]
    exact hab
  · dsimp only
    rw [List.length_map]
    exact le_trans (List.length_filter_le _ _) (getNearbyAgents_len world agent.pos _)
  · intro e he
    dsimp only at he
    rw [List.mem_map] at he
    obtain ⟨s, hs, rfl⟩ := he
    refine ⟨rfl, ?_⟩
    have hm := getNearbyStructures_mem hs
    rw [calculateDistance_comm]
    exact hm.2
  · dsimp only
    rw [List.pairwise_map]
    refine List.Pairwise.imp ?_ (getNearbyStructures_sorted structs agent.pos _)
    intro a b hab
    unfold structDistLE at hab
    dsimp only
    rw [calculateDistance_comm agent.pos a.pos, calculateDistance_comm agent.pos b.pos]
    exact hab
  · dsimp only
    rw [List.length_map]
    exact getNearbyStructures_len structs agent.pos _

/-- C4 witness: the specification applied to a query with an absent
radius. -/
theorem getNearbyEntities_spec_witness :
    getNearbyEntities [] [] ⟨5, ⟨0, 50, 0⟩, true⟩ none = Except.ok ⟨[], []⟩ ∧
    1 ≤ max 1 (min (jsOrDefault none 50) 300) ∧
    max 1 (min (jsOrDefault none 50) 300) ≤ 300 ∧
    max 1 (min (jsOrDefault none 50) 300) = 50 ∧
    (⟨[], []⟩ : NearbyResult).agents.length ≤ 50 ∧
    (⟨[], []⟩ : NearbyResult).structures.length ≤ 100 := by
  have h : getNearbyEntities [] [] ⟨5, ⟨0, 50, 0⟩, true⟩ none = Except.ok ⟨[], []⟩ := rfl
  have hs := getNearbyEntities_spec [] [] ⟨5, ⟨0, 50, 0⟩, true⟩ none ⟨[], []⟩ h
  exact ⟨h, hs.1.1, hs.1.2.1, hs.1.2.2 rfl, hs.2.2.2.1, hs.2.2.2.2.2.2⟩

end Moltworld
